import Mathlib

/-!
Verification of the multi-modal query dispatcher of the
obsidian-smart-connections MCP lookup tool
(`src/smart-connections-mcp-ts`, class `SmartConnectionsLookupTool`).

The JavaScript source is embedded shallowly: asynchronous calls into the
backing collections become pure functions carried inside an `Env` value,
thrown exceptions become `Except`, JavaScript object fields that may be
absent become `Option`, and JavaScript numbers become `ℚ` (the one
floating-point operation, `Math.sqrt` in the statistical cutoff filter,
is modelled by comparing squares: for `g, v ≥ 0`,
`|g| > Math.sqrt v ↔ g^2 > v` in exact arithmetic).
-/

namespace SmartConnections

/-- Which backing collection(s) a request targets
(`filter.collection ∈ \x7b"sources","blocks","both"\x7d`). -/
inductive Scope where
  | sources
  | blocks
  | both
deriving DecidableEq, Repr

/-- The `query_type` argument (`"vector"` or `"lexical"`). -/
inductive QueryType where
  | vector
  | lexical
deriving DecidableEq, Repr

/-- The `vector_operation` argument (`"nearest"`, `"furthest"`, `"nearest_to"`). -/
inductive VectorOp where
  | nearest
  | furthest
  | nearest_to
deriving DecidableEq, Repr

/-- A raw, adapter-specific result record as returned by a backing
collection.  The fields are the ones the dispatcher reads
(`key`, `id`, `score`, `sim`, `content`, `data?.content`, `text`, `path`,
`collection_type`, `breadcrumbs`, `size`, `last_modified`), plus
`raw_content`: an additional content alias some backing collections
populate (per the repository's content-retrieval bug report) which the
dispatcher's formatting code never reads. -/
structure RawResult where
  key : Option String := none
  id : Option String := none
  score : Option ℚ := none
  sim : Option ℚ := none
  content : Option String := none
  data_content : Option String := none
  text : Option String := none
  raw_content : Option String := none
  path : Option String := none
  collection_type : Option String := none
  breadcrumbs : Option String := none
  size : Option ℕ := none
  last_modified : Option ℕ := none
deriving DecidableEq, Repr

/-- JavaScript truthiness filter for an optional number:
`0` and a missing value are falsy. -/
def truthyQ (o : Option ℚ) : Option ℚ :=
  match o with
  | some x => if x = 0 then none else some x
  | none => none

/-- JavaScript truthiness filter for an optional string:
`""` and a missing value are falsy. -/
def truthyS (o : Option String) : Option String :=
  match o with
  | some s => if s = "" then none else some s
  | none => none

/-- The score the filter and formatter read from a raw record:
JS `r.score || r.sim || 0`. -/
def scoreOf (r : RawResult) : ℚ :=
  match truthyQ r.score with
  | some x => x
  | none =>
    match truthyQ r.sim with
    | some y => y
    | none => 0

/-- The loop of `get_nearest_until_next_dev_exceeds_std_dev`:
`for (let i = 0; i < results.length - 1; i++)` pushes `results[i]` and
breaks once `Math.abs(scores[i] - scores[i+1]) > stdDev`.  The comparison
with `stdDev = Math.sqrt variance` is modelled as `gap^2 > variance`
(equivalent over the reals since both sides of the original comparison
are nonnegative).  Note the loop bound: the final element of the input is
never pushed, even when no gap ever exceeds the deviation. -/
def devLoop (variance : ℚ) : List RawResult → List RawResult
  | r₁ :: r₂ :: rest =>
    r₁ :: (if (scoreOf r₁ - scoreOf r₂) ^ 2 > variance then []
           else devLoop variance (r₂ :: rest))
  | _ => []

/-- The statistical cutoff filter
`get_nearest_until_next_dev_exceeds_std_dev(results)`: lists of length
≤ 2 are returned unchanged; otherwise the population mean and variance of
the scores are computed and the pairwise loop truncates at the first
score cliff; an empty loop output falls back to the first
`min(10, length)` elements. -/
def get_nearest_until_next_dev_exceeds_std_dev (results : List RawResult) :
    List RawResult :=
  if results.length ≤ 2 then results
  else
    let scores := results.map scoreOf
    let mean : ℚ := scores.sum / (scores.length : ℚ)
    let variance : ℚ := (scores.map (fun s => (s - mean) ^ 2)).sum / (scores.length : ℚ)
    let filtered := devLoop variance results
    if filtered.length > 0 then filtered
    else results.take (min 10 results.length)

/-- The `filter` parameter object passed by a caller; every field is
optional in the payload. -/
structure Filter where
  limit : Option ℕ := none
  collection : Option Scope := none
  key_starts_with : Option String := none
  exclude_key_starts_with : Option String := none
deriving DecidableEq, Repr

/-- The `filter = \x7b\x7d` destructuring default in `execute`. -/
def emptyFilter : Filter := {}

/-- The defaulted search filter built in `execute`:
`\x7b limit: filter.limit || 10, collection: filter.collection || 'both', ...filter \x7d`.
Because the spread comes last, a field present in the caller's filter
always wins (including a present `limit: 0`, which survives the spread);
an absent field gets the default. -/
structure SearchFilter where
  limit : ℕ
  collection : Scope
  key_starts_with : Option String
  exclude_key_starts_with : Option String
deriving DecidableEq, Repr

def mkSearchFilter (f : Filter) : SearchFilter :=
  { limit := f.limit.getD 10
    collection := f.collection.getD Scope.both
    key_starts_with := f.key_starts_with
    exclude_key_starts_with := f.exclude_key_starts_with }

/-- Parameters `searchCollection` passes to `collection.lookup`:
`\x7b hypotheticals, key_starts_with?, exclude_key_starts_with? \x7d`.
No limit is forwarded on this path. -/
structure LookupParams where
  hypotheticals : List String
  key_starts_with : Option String
  exclude_key_starts_with : Option String

/-- Parameters `performLexicalSearch` passes to `collection.search`:
`\x7b keywords, limit, key_starts_with, exclude_key_starts_with \x7d`. -/
structure SearchParams where
  keywords : List String
  limit : ℕ
  key_starts_with : Option String
  exclude_key_starts_with : Option String

/-- Parameters `performDirectVectorSearch` passes to
`collection.nearest` / `collection.furthest`:
`\x7b limit, key_starts_with, exclude_key_starts_with \x7d`. -/
structure VecParams where
  limit : ℕ
  key_starts_with : Option String
  exclude_key_starts_with : Option String

/-- A backing collection (`smart_sources` / `smart_blocks`).  Methods that
the dispatcher probes for presence (`search`, `nearest`, `furthest`) are
`Option`s; a call's `Except.error` outcome stands for a thrown exception
(and, for `lookup`, also for a non-array return — both are treated as
zero results by the dispatcher).  `get` models the host environment's
entity resolution `get(key)` (returning the entity's vector); the
dispatcher code never invokes it. -/
structure Collection where
  lookup : LookupParams → Except String (List RawResult)
  search : Option (SearchParams → Except String (List RawResult))
  nearest : Option (List ℚ → VecParams → Except String (List RawResult))
  furthest : Option (List ℚ → VecParams → Except String (List RawResult))
  get : String → Option (List ℚ)

/-- The plugin environment `this.plugin.env` once loaded: the two
optional collections. -/
structure Env where
  smart_sources : Option Collection
  smart_blocks : Option Collection

/-- The plugin handle: `this.plugin.env` is absent until the host
environment finishes initializing. -/
structure Plugin where
  env : Option Env

/-- The raw caller payload `args` destructured at the top of `execute`. -/
structure Args where
  query_type : Option QueryType := none
  keywords : Option (List String) := none
  direct_vector : Option (List ℚ) := none
  vector_operation : Option VectorOp := none
  hypotheticals : Option (List String) := none
  filter : Option Filter := none

/-- `searchCollection(collection, params, filter, collectionType)`:
builds the lookup params (hypotheticals plus the key filters, no limit),
calls `collection.lookup`, treats a throw or non-array return as zero
results, and tags each result with the collection type. -/
def searchCollection (c : Collection) (hyps : List String) (sf : SearchFilter)
    (collectionType : String) : List RawResult :=
  match c.lookup { hypotheticals := hyps
                   key_starts_with := sf.key_starts_with
                   exclude_key_starts_with := sf.exclude_key_starts_with } with
  | .ok rs => rs.map (fun r => { r with collection_type := some collectionType })
  | .error _ => []

/-- The sources contribution of `performVectorSearch`: queried when the
scope is `sources` or `both` and `env.smart_sources` exists. -/
def vectorSourcesPart (env : Env) (hyps : List String) (sf : SearchFilter) :
    List RawResult :=
  if sf.collection = Scope.sources ∨ sf.collection = Scope.both then
    match env.smart_sources with
    | some c => searchCollection c hyps sf "source"
    | none => []
  else []

/-- The blocks contribution of `performVectorSearch`. -/
def vectorBlocksPart (env : Env) (hyps : List String) (sf : SearchFilter) :
    List RawResult :=
  if sf.collection = Scope.blocks ∨ sf.collection = Scope.both then
    match env.smart_blocks with
    | some c => searchCollection c hyps sf "block"
    | none => []
  else []

/-- `performVectorSearch(hypotheticals, searchFilter)`: concatenates the
sources results followed by the blocks results.  No re-ranking happens
here or later. -/
def performVectorSearch (env : Env) (hyps : List String) (sf : SearchFilter) :
    List RawResult :=
  vectorSourcesPart env hyps sf ++ vectorBlocksPart env hyps sf

/-- One collection's lexical contribution inside `performLexicalSearch`:
requires the collection to exist and expose `search`; a thrown call is
caught and contributes zero results. -/
def lexicalPart (oc : Option Collection) (keywords : List String)
    (sf : SearchFilter) (collectionType : String) : List RawResult :=
  match oc with
  | some c =>
    match c.search with
    | some f =>
      match f { keywords := keywords
                limit := sf.limit
                key_starts_with := sf.key_starts_with
                exclude_key_starts_with := sf.exclude_key_starts_with } with
      | .ok rs => rs.map (fun r => { r with collection_type := some collectionType })
      | .error _ => []
    | none => []
  | none => []

/-- The combined lexical result of `performLexicalSearch` before the
vector fallback. -/
def lexicalCombined (env : Env) (keywords : List String) (sf : SearchFilter) :
    List RawResult :=
  (if sf.collection = Scope.sources ∨ sf.collection = Scope.both then
    lexicalPart env.smart_sources keywords sf "source"
  else []) ++
  (if sf.collection = Scope.blocks ∨ sf.collection = Scope.both then
    lexicalPart env.smart_blocks keywords sf "block"
  else [])

/-- `performLexicalSearch(keywords, searchFilter)`: if the combined
lexical result is empty, falls back to `performVectorSearch` with the
keywords as hypotheticals. -/
def performLexicalSearch (env : Env) (keywords : List String) (sf : SearchFilter) :
    List RawResult :=
  let results := lexicalCombined env keywords sf
  if results = [] then performVectorSearch env keywords sf else results

/-- `getTargetCollection(searchFilter)`: `sources` and `blocks` pick
their collection; any other value (here `both`) defaults to sources. -/
def getTargetCollection (env : Env) (sf : SearchFilter) : Option Collection :=
  match sf.collection with
  | Scope.sources => env.smart_sources
  | Scope.blocks => env.smart_blocks
  | Scope.both => env.smart_sources

/-- The `collection_type` tag attached in `performDirectVectorSearch`:
`'source'` for sources scope, `'block'` for blocks scope, `'unknown'`
otherwise. -/
def dvCollectionType (sf : SearchFilter) : String :=
  match sf.collection with
  | Scope.sources => "source"
  | Scope.blocks => "block"
  | Scope.both => "unknown"

/-- The synthetic hypothetical used by the direct-vector catch block:
`vector search with $\x7bdirect_vector.length\x7d dimensions`. -/
def syntheticHypothetical (v : List ℚ) : String :=
  "vector search with " ++ toString v.length ++ " dimensions"

/-- `performDirectVectorSearch(direct_vector, vector_operation, searchFilter)`.
The `nearest_to` case is routed to the same code as `nearest` (the code
comments that it would require an entity key and falls back to `nearest`
for now); a collection missing the probed method contributes zero results
without falling back; a missing target collection (property access on
`undefined` throws) or a throwing backing call is caught and falls back to
a vector search with a synthetic hypothetical. -/
def performDirectVectorSearch (env : Env) (v : List ℚ) (op : VectorOp)
    (sf : SearchFilter) : List RawResult :=
  match getTargetCollection env sf with
  | none => performVectorSearch env [syntheticHypothetical v] sf
  | some c =>
    let attempt : Except String (List RawResult) :=
      match op with
      | VectorOp.nearest =>
        match c.nearest with
        | some f => f v { limit := sf.limit
                          key_starts_with := sf.key_starts_with
                          exclude_key_starts_with := sf.exclude_key_starts_with }
        | none => .ok []
      | VectorOp.nearest_to =>
        match c.nearest with
        | some f => f v { limit := sf.limit
                          key_starts_with := sf.key_starts_with
                          exclude_key_starts_with := sf.exclude_key_starts_with }
        | none => .ok []
      | VectorOp.furthest =>
        match c.furthest with
        | some f => f v { limit := sf.limit
                          key_starts_with := sf.key_starts_with
                          exclude_key_starts_with := sf.exclude_key_starts_with }
        | none => .ok []
    match attempt with
    | .ok rs => rs.map (fun r => { r with collection_type := some (dvCollectionType sf) })
    | .error _ => performVectorSearch env [syntheticHypothetical v] sf

/-- One formatted (canonical) result as produced by the `formattedResults`
map in `execute`.  Note: there is no `content_missing` field in the
produced record. -/
structure FormattedResult where
  key : Option String
  score : ℚ
  content : String
  path : Option String
  type : String
  breadcrumbs : Option String
  size : Option ℕ
  last_modified : Option ℕ
deriving DecidableEq, Repr

/-- The per-result formatting in `execute`:
`key: result.key || result.id`, `score: result.score || result.sim || 0`,
`content: result.content || result.data?.content || result.text || ''`,
`path: result.path || result.key`,
`type: result.collection_type || 'unknown'`, and pass-through fields.
JavaScript `a || b` keeps `a` when truthy and otherwise yields `b`
unchanged. -/
def formatResult (r : RawResult) : FormattedResult :=
  { key := match truthyS r.key with
           | some s => some s
           | none => r.id
    score := scoreOf r
    content := match truthyS r.content with
               | some s => s
               | none =>
                 match truthyS r.data_content with
                 | some s => s
                 | none =>
                   match truthyS r.text with
                   | some s => s
                   | none => ""
    path := match truthyS r.path with
            | some s => some s
            | none => r.key
    type := match truthyS r.collection_type with
            | some s => s
            | none => "unknown"
    breadcrumbs := r.breadcrumbs
    size := r.size
    last_modified := r.last_modified }

/-- The success payload of `execute`.  The `search_params` echo and
`plugin_info` blocks are pure read-backs of the inputs and host state and
are omitted from the model; `count` and `total_before_limit` are computed
exactly as in the source, both from the array left after the limit slice. -/
structure Output where
  results : List FormattedResult
  count : ℕ
  total_before_limit : ℕ
deriving DecidableEq, Repr

/-- The mode routing in `execute` (the `if`/`else if` chain):
lexical when `query_type === "lexical" && keywords` (any present keywords
array is truthy, including an empty one), else direct vector when
`direct_vector` is present (again, even empty), else vector when
`hypotheticals && hypotheticals.length > 0`, else no results. -/
def routeResults (env : Env) (args : Args) (sf : SearchFilter) : List RawResult :=
  if args.query_type.getD QueryType.vector = QueryType.lexical ∧ args.keywords.isSome then
    performLexicalSearch env (args.keywords.getD []) sf
  else if args.direct_vector.isSome then
    performDirectVectorSearch env (args.direct_vector.getD [])
      (args.vector_operation.getD VectorOp.nearest) sf
  else if (args.hypotheticals.getD []).length > 0 then
    performVectorSearch env (args.hypotheticals.getD []) sf
  else []

/-- The tail of `execute`: the statistical cutoff filter is applied when
any results were found, then the limit slice, then formatting; `count`
and `total_before_limit` both read the post-slice array. -/
def applyPipeline (sf : SearchFilter) (found : List RawResult) : Output :=
  let filtered := if found.length > 0
    then get_nearest_until_next_dev_exceeds_std_dev found else found
  let limited := filtered.take sf.limit
  let formattedResults := limited.map formatResult
  { results := formattedResults
    count := formattedResults.length
    total_before_limit := limited.length }

/-- `execute(args)`: throws when `this.plugin.env` is absent, otherwise
defaults the filter, routes by mode, filters, limits and formats.  All
per-collection failures are caught inside the routed calls, so a loaded
environment always yields a success value. -/
def executeSearch (plugin : Plugin) (args : Args) : Except String Output :=
  match plugin.env with
  | none =>
    .error "Smart Connections environment not ready. Please wait for plugin to fully load."
  | some env =>
    let sf := mkSearchFilter (args.filter.getD emptyFilter)
    .ok (applyPipeline sf (routeResults env args sf))

/-- Success projection of an `execute` outcome. -/
def okOutput (e : Except String Output) : Option Output :=
  match e with
  | .ok o => some o
  | .error _ => none

/-- The scores of the returned results of a successful `execute` outcome. -/
def okScores (e : Except String Output) : Option (List ℚ) :=
  (okOutput e).map (fun o => o.results.map (fun r => r.score))

/-- The `maximum` declared for `filter.limit` in the tool's published
input schema (`getToolDefinition`).  No code in `execute` reads or
enforces it. -/
def inputSchemaLimitMaximum : ℕ := 50

/-- Modelled from the spec: the fallback chain for DirectVector with
`vector_operation = NearestTo` — "requires resolving an entity by key
first; if the entity cannot be resolved, falls back to `Nearest` with the
supplied vector".  The entity key is missing from the shipped request
schema, so it is taken as an explicit parameter here; resolving yields
the entity's vector, which drives the nearest operation, and the usual
error isolation (a throw contributes zero results) applies. -/
def nearestToPerSpec (c : Collection) (key : String) (v : List ℚ)
    (p : VecParams) : List RawResult :=
  match c.nearest with
  | some f =>
    match f (match c.get key with | some w => w | none => v) p with
    | .ok rs => rs
    | .error _ => []
  | none => []

/-- A raw result carrying only a score. -/
def rq (q : ℚ) : RawResult := { score := some q }

/-- A sources collection whose semantic lookup returns one result of
score 1 and which supports nothing else. -/
def cSrc1 : Collection :=
  { lookup := fun _ => .ok [rq 1]
    search := none
    nearest := none
    furthest := none
    get := fun _ => none }

/-- A blocks collection whose semantic lookup returns one result of
score 2. -/
def cBlk1 : Collection :=
  { lookup := fun _ => .ok [rq 2]
    search := none
    nearest := none
    furthest := none
    get := fun _ => none }

/-- An environment with both collections available. -/
def env1 : Env := { smart_sources := some cSrc1, smart_blocks := some cBlk1 }

/-- A fully loaded plugin over `env1`. -/
def plugin1 : Plugin := { env := some env1 }

/-- A plain vector request (hypotheticals only, default filter:
limit 10, scope both). -/
def args1 : Args := { hypotheticals := some ["q"] }

/-- The raw result observed in the content-loss defect: every alias the
formatter reads is empty or absent, while the backing collection stores
the document text under an alias the formatter never reads. -/
def rr3 : RawResult :=
  { key := some "doc.md"
    score := some 1
    content := some ""
    text := some ""
    raw_content := some "actual document text" }

/-- A sources collection for the mode-precedence counterexample: lexical
search always finds a score-1 result, direct nearest always finds a
score-3 result. -/
def cSrc4 : Collection :=
  { lookup := fun _ => .ok []
    search := some (fun _ => .ok [rq 1])
    nearest := some (fun _ _ => .ok [rq 3])
    furthest := none
    get := fun _ => none }

/-- Environment for the mode-precedence counterexample. -/
def env4 : Env := { smart_sources := some cSrc4, smart_blocks := none }

/-- Plugin over `env4`. -/
def plugin4 : Plugin := { env := some env4 }

/-- A payload with a lexical hint, an *empty but present* keywords list,
and a direct vector: the spec's precedence sends it to DirectVector, the
code's truthiness test sends it to Lexical. -/
def args4a : Args :=
  { query_type := some QueryType.lexical
    keywords := some []
    direct_vector := some [5]
    filter := some { collection := some Scope.sources } }

/-- The same payload without the keywords field. -/
def args4b : Args :=
  { query_type := some QueryType.lexical
    keywords := none
    direct_vector := some [5]
    filter := some { collection := some Scope.sources } }

/-- The full keyword-match list of the limit-forwarding counterexample:
six results whose first five are close in score and whose last is a
cliff, so the cutoff filter keeps exactly five of them. -/
def full6 : List RawResult :=
  [rq (9/10), rq (89/100), rq (22/25), rq (87/100), rq (43/50), rq (1/10)]

/-- A sources collection whose keyword search honours the `limit` it is
handed, returning the top `limit` of `full6`. -/
def cSrc5 : Collection :=
  { lookup := fun _ => .error "no lookup"
    search := some (fun p => .ok (full6.take p.limit))
    nearest := none
    furthest := none
    get := fun _ => none }

/-- Environment for the limit-forwarding counterexample. -/
def env5 : Env := { smart_sources := some cSrc5, smart_blocks := none }

/-- Plugin over `env5`. -/
def plugin5 : Plugin := { env := some env5 }

/-- A lexical request with `limit = 3` against `env5`. -/
def args5 : Args :=
  { query_type := some QueryType.lexical
    keywords := some ["alpha"]
    filter := some { limit := some 3, collection := some Scope.sources } }

/-- `full6` as the dispatcher would tag it (`collection_type: 'source'`):
the unlimited combined lexical result the spec's pipeline would filter. -/
def taggedFull6 : List RawResult :=
  full6.map (fun r => { r with collection_type := some "source" })

/-- A sources collection whose keyword search throws and whose semantic
lookup works, for the lexical-fallback witness. -/
def cSrc7 : Collection :=
  { lookup := fun _ => .ok [rq 1]
    search := some (fun _ => .error "lexical search not available")
    nearest := none
    furthest := none
    get := fun _ => none }

/-- Environment for the lexical-fallback witness. -/
def env7 : Env := { smart_sources := some cSrc7, smart_blocks := none }

/-- Plugin over `env7`. -/
def plugin7 : Plugin := { env := some env7 }

/-- A lexical request with default filter (scope both) against `env7`. -/
def args7 : Args :=
  { query_type := some QueryType.lexical
    keywords := some ["k"] }

/-- The defaulted search filter of an empty caller filter
(limit 10, scope both). -/
def sfDefault : SearchFilter := mkSearchFilter emptyFilter

/-- A collection for the NearestTo counterexample: every key resolves to
the entity vector `[7]`, and the nearest operation distinguishes the
entity vector (score-5 result) from any other query vector (score-6
result). -/
def cNT : Collection :=
  { lookup := fun _ => .error "no lookup"
    search := none
    nearest := some (fun w _ => if w = [7] then .ok [rq 5] else .ok [rq 6])
    furthest := none
    get := fun _ => some [7] }

/-- Environment for the NearestTo counterexample. -/
def envNT : Env := { smart_sources := some cNT, smart_blocks := none }

/-- Sources-scoped search filter used in the NearestTo counterexample. -/
def sfNT : SearchFilter := mkSearchFilter { collection := some Scope.sources }

/-- The vector params the dispatcher would hand the backing call under
`sfNT`. -/
def pNT : VecParams :=
  { limit := sfNT.limit
    key_starts_with := sfNT.key_starts_with
    exclude_key_starts_with := sfNT.exclude_key_starts_with }

/-- A vector request whose filter carries `limit = 60`, above the
published schema maximum of 50. -/
def args9 : Args :=
  { hypotheticals := some ["q"]
    filter := some { limit := some 60 } }

/-- The output `executeSearch plugin1 args1` produces: the two lookup
results in concatenation order, formatted. -/
def out1 : Output :=
  { results :=
      [{ key := none, score := 1, content := "", path := none, type := "source"
         breadcrumbs := none, size := none, last_modified := none },
       { key := none, score := 2, content := "", path := none, type := "block"
         breadcrumbs := none, size := none, last_modified := none }]
    count := 2
    total_before_limit := 2 }

/-! Helper lemmas shared by several results. -/

/-- A vector search over an environment with no collections finds nothing. -/
lemma performVectorSearch_noCollections (hyps : List String) (sf : SearchFilter) :
    performVectorSearch { smart_sources := none, smart_blocks := none } hyps sf = [] := by
  simp [performVectorSearch, vectorSourcesPart, vectorBlocksPart]

/-- A lexical search over an environment with no collections finds
nothing (its vector fallback also finds nothing). -/
lemma performLexicalSearch_noCollections (kws : List String) (sf : SearchFilter) :
    performLexicalSearch { smart_sources := none, smart_blocks := none } kws sf = [] := by
  simp [performLexicalSearch, lexicalCombined, lexicalPart, performVectorSearch_noCollections]

/-- A direct-vector search over an environment with no collections finds
nothing (the missing target collection falls back to an empty vector
search). -/
lemma performDirectVectorSearch_noCollections (v : List ℚ) (op : VectorOp)
    (sf : SearchFilter) :
    performDirectVectorSearch { smart_sources := none, smart_blocks := none } v op sf = [] := by
  unfold performDirectVectorSearch getTargetCollection
  cases sf.collection <;> simp [performVectorSearch_noCollections]

/-- Every routing branch finds nothing in an environment with no
collections. -/
lemma routeResults_noCollections (args : Args) (sf : SearchFilter) :
    routeResults { smart_sources := none, smart_blocks := none } args sf = [] := by
  unfold routeResults
  split
  · exact performLexicalSearch_noCollections _ _
  · split
    · exact performDirectVectorSearch_noCollections _ _ _
    · split
      · exact performVectorSearch_noCollections _ _
      · rfl

/-- On a loaded plugin, `execute` returns the routed results pushed
through the cutoff/limit/format pipeline. -/
lemma executeSearch_loaded (plugin : Plugin) (env : Env) (args : Args)
    (henv : plugin.env = some env) :
    executeSearch plugin args =
      .ok (applyPipeline (mkSearchFilter (args.filter.getD emptyFilter))
        (routeResults env args (mkSearchFilter (args.filter.getD emptyFilter)))) := by
  simp [executeSearch, henv]

/-- `count` always equals `total_before_limit`, and both are bounded by
the limit, since both read the post-slice array. -/
lemma applyPipeline_counts (sf : SearchFilter) (found : List RawResult) :
    (applyPipeline sf found).count = (applyPipeline sf found).total_before_limit ∧
    (applyPipeline sf found).total_before_limit ≤ sf.limit := by
  constructor
  · simp [applyPipeline]
  · simp [applyPipeline, List.length_take]

/-! Claim results. -/

/-- C1, counterexample: with `collection_scope = Both` and both
collections returning results (sources score 1, blocks score 2), the
final result list of `executeSearch` is `[1, 2]` — ascending, so the
output is not re-ranked descending by score and contains a score
inversion. -/
theorem executeSearch_not_sorted_counterexample :
    okScores (executeSearch plugin1 args1) = some [1, 2] ∧
    (mkSearchFilter (args1.filter.getD emptyFilter)).collection = Scope.both ∧
    ¬ ((1 : ℚ) ≥ 2) := by
  refine ⟨by rfl, by rfl, by norm_num⟩

/-- C1, amended: with `collection_scope = Both` the merged list is never
re-ranked, in either mode.  In Vector mode the cutoff filter and
truncation are applied to the plain concatenation of the sources results
followed by the blocks results; in Lexical mode the pipeline likewise
receives the sources-then-blocks concatenation of the lexical results
(or, when that is empty, the sources-then-blocks concatenation of the
vector fallback).  The final output preserves that concatenation order,
so it is sorted descending only when the concatenation already is. -/
theorem executeSearch_merges_without_reranking
    (plugin : Plugin) (env : Env) (args : Args) (sf : SearchFilter)
    (henv : plugin.env = some env)
    (hsf : sf = mkSearchFilter (args.filter.getD emptyFilter))
    (hscope : sf.collection = Scope.both) :
    (∀ hs : List String, args.keywords = none → args.direct_vector = none →
      args.hypotheticals = some hs → hs ≠ [] →
      executeSearch plugin args =
        .ok (applyPipeline sf (vectorSourcesPart env hs sf ++ vectorBlocksPart env hs sf))) ∧
    (∀ kws : List String, args.query_type.getD QueryType.vector = QueryType.lexical →
      args.keywords = some kws →
      executeSearch plugin args =
        .ok (applyPipeline sf
          (if lexicalPart env.smart_sources kws sf "source" ++
              lexicalPart env.smart_blocks kws sf "block" = []
           then vectorSourcesPart env kws sf ++ vectorBlocksPart env kws sf
           else lexicalPart env.smart_sources kws sf "source" ++
              lexicalPart env.smart_blocks kws sf "block"))) := by
  subst hsf
  constructor
  · intro hs hkw hdv hhyp hne
    simp [executeSearch, henv, routeResults, hkw, hdv, hhyp, List.length_pos.mpr hne,
      performVectorSearch]
  · intro kws hqt hkw
    have hcomb : lexicalCombined env kws (mkSearchFilter (args.filter.getD emptyFilter)) =
        lexicalPart env.smart_sources kws (mkSearchFilter (args.filter.getD emptyFilter)) "source" ++
        lexicalPart env.smart_blocks kws (mkSearchFilter (args.filter.getD emptyFilter)) "block" := by
      simp [lexicalCombined, hscope]
    simp [executeSearch, henv, routeResults, hqt, hkw, performLexicalSearch, hcomb,
      performVectorSearch]

/-- C1, witness for the amended statement: the Vector arm at the concrete
two-collection environment and the Lexical arm at a concrete
default-scope lexical request. -/
theorem executeSearch_merges_without_reranking_witness :
    plugin1.env = some env1 ∧
    (mkSearchFilter (args1.filter.getD emptyFilter)).collection = Scope.both ∧
    executeSearch plugin1 args1 =
      .ok (applyPipeline (mkSearchFilter (args1.filter.getD emptyFilter))
        (vectorSourcesPart env1 ["q"] (mkSearchFilter (args1.filter.getD emptyFilter)) ++
         vectorBlocksPart env1 ["q"] (mkSearchFilter (args1.filter.getD emptyFilter)))) ∧
    executeSearch plugin7 args7 =
      .ok (applyPipeline (mkSearchFilter (args7.filter.getD emptyFilter))
        (if lexicalPart env7.smart_sources ["k"] (mkSearchFilter (args7.filter.getD emptyFilter)) "source" ++
            lexicalPart env7.smart_blocks ["k"] (mkSearchFilter (args7.filter.getD emptyFilter)) "block" = []
         then vectorSourcesPart env7 ["k"] (mkSearchFilter (args7.filter.getD emptyFilter)) ++
            vectorBlocksPart env7 ["k"] (mkSearchFilter (args7.filter.getD emptyFilter))
         else lexicalPart env7.smart_sources ["k"] (mkSearchFilter (args7.filter.getD emptyFilter)) "source" ++
            lexicalPart env7.smart_blocks ["k"] (mkSearchFilter (args7.filter.getD emptyFilter)) "block")) := by
  refine ⟨rfl, rfl, ?_, ?_⟩
  · exact (executeSearch_merges_without_reranking plugin1 env1 args1
      (mkSearchFilter (args1.filter.getD emptyFilter)) rfl rfl rfl).1 ["q"] rfl rfl rfl (by decide)
  · exact (executeSearch_merges_without_reranking plugin7 env7 args7
      (mkSearchFilter (args7.filter.getD emptyFilter)) rfl rfl rfl).2 ["k"] rfl rfl

/-- C2: on four equal scores `[1/2, 1/2, 1/2, 1/2]` — no adjacent gap can
exceed the (zero) standard deviation — the cutoff filter returns only the
first three elements: the loop never appends the final element, so the
code drops it although the spec requires the full list. -/
theorem cutoff_drops_final_element_on_equal_scores :
    get_nearest_until_next_dev_exceeds_std_dev [rq (1/2), rq (1/2), rq (1/2), rq (1/2)] =
      [rq (1/2), rq (1/2), rq (1/2)] := by
  norm_num [get_nearest_until_next_dev_exceeds_std_dev, devLoop, scoreOf, truthyQ, rq]

/-- C3: for a raw result whose only populated content alias
(`raw_content`) is one the formatter never reads, the formatted record
carries `content = ""`; the produced record has no `content_missing`
field at all, so the populated alias is silently discarded in favour of
an empty default. -/
theorem formatResult_discards_unrecognized_alias :
    (formatResult rr3).content = "" ∧ rr3.raw_content = some "actual document text" := by
  decide

/-- C4, counterexample: a payload with a lexical hint, a *present but
empty* keywords list and a direct vector is served by the Lexical path
(score-1 result) because a present empty array is truthy, whereas the
claimed precedence demands the DirectVector path (score-3 result), which
the same payload without the keywords field does take. -/
theorem empty_keywords_array_routes_lexical :
    args4a.keywords = some [] ∧ args4a.direct_vector.isSome = true ∧
    okScores (executeSearch plugin4 args4a) = some [1] ∧
    okScores (executeSearch plugin4 args4b) = some [3] ∧
    (1 : ℚ) ≠ 3 := by
  refine ⟨rfl, rfl, by rfl, by rfl, by norm_num⟩

/-- C4, amended: mode precedence with first matching rule winning, where
rule 1 requires the keywords field to be *present* (possibly empty), not
non-empty: (1) lexical hint and present keywords → Lexical; (2) else
present direct_vector → DirectVector with the operation defaulting to
Nearest; (3) else non-empty hypotheticals → Vector; (4) else an empty
result set with no error. -/
theorem executeSearch_mode_precedence
    (plugin : Plugin) (env : Env) (args : Args) (sf : SearchFilter)
    (henv : plugin.env = some env)
    (hsf : sf = mkSearchFilter (args.filter.getD emptyFilter)) :
    (args.query_type.getD QueryType.vector = QueryType.lexical ∧ args.keywords.isSome →
      executeSearch plugin args =
        .ok (applyPipeline sf (performLexicalSearch env (args.keywords.getD []) sf))) ∧
    (¬ (args.query_type.getD QueryType.vector = QueryType.lexical ∧ args.keywords.isSome) →
      args.direct_vector.isSome →
      executeSearch plugin args =
        .ok (applyPipeline sf (performDirectVectorSearch env (args.direct_vector.getD [])
          (args.vector_operation.getD VectorOp.nearest) sf))) ∧
    (¬ (args.query_type.getD QueryType.vector = QueryType.lexical ∧ args.keywords.isSome) →
      args.direct_vector = none →
      args.hypotheticals.getD [] ≠ [] →
      executeSearch plugin args =
        .ok (applyPipeline sf (performVectorSearch env (args.hypotheticals.getD []) sf))) ∧
    (¬ (args.query_type.getD QueryType.vector = QueryType.lexical ∧ args.keywords.isSome) →
      args.direct_vector = none →
      args.hypotheticals.getD [] = [] →
      executeSearch plugin args = .ok { results := [], count := 0, total_before_limit := 0 }) := by
  subst hsf
  refine ⟨?_, ?_, ?_, ?_⟩
  · intro h
    simp [executeSearch, henv, routeResults, h]
  · intro hn hdv
    simp [executeSearch, henv, routeResults, hn, hdv]
  · intro hn hdv hhyp
    simp [executeSearch, henv, routeResults, hn, hdv, List.length_pos.mpr hhyp]
  · intro hn hdv hhyp
    simp [executeSearch, henv, routeResults, hn, hdv, hhyp, applyPipeline]

/-- C4, witness: the first precedence arm applied to the concrete
empty-keywords payload. -/
theorem executeSearch_mode_precedence_witness :
    executeSearch plugin4 args4a =
      .ok (applyPipeline (mkSearchFilter (args4a.filter.getD emptyFilter))
        (performLexicalSearch env4 [] (mkSearchFilter (args4a.filter.getD emptyFilter)))) :=
  (executeSearch_mode_precedence plugin4 env4 args4a
    (mkSearchFilter (args4a.filter.getD emptyFilter)) rfl rfl).1 (by decide)

/-- C5, counterexample: in Lexical mode the dispatcher forwards
`limit = 3` to the backing keyword search, so a limit-honouring
collection truncates before cutoff filtering: the full match list has a
cutoff-filtered set of exactly five results whose top three are
`[9/10, 89/100, 22/25]`, but `executeSearch` returns only `[9/10]` — the
cutoff filter ran on the pre-truncated three results instead of the
filtered set. -/
theorem limit_forwarded_before_cutoff_counterexample :
    (mkSearchFilter (args5.filter.getD emptyFilter)).limit = 3 ∧
    (get_nearest_until_next_dev_exceeds_std_dev taggedFull6).length = 5 ∧
    ((get_nearest_until_next_dev_exceeds_std_dev taggedFull6).take 3).map scoreOf =
      [9/10, 89/100, 22/25] ∧
    okScores (executeSearch plugin5 args5) = some [9/10] ∧
    ([9/10] : List ℚ) ≠ [9/10, 89/100, 22/25] := by
  refine ⟨rfl, ?_, ?_, ?_, by simp⟩
  · norm_num [get_nearest_until_next_dev_exceeds_std_dev, devLoop, scoreOf, truthyQ,
      taggedFull6, full6, rq]
  · norm_num [get_nearest_until_next_dev_exceeds_std_dev, devLoop, scoreOf, truthyQ,
      taggedFull6, full6, rq]
  · rw [executeSearch_loaded plugin5 env5 args5 rfl]
    have hroute : routeResults env5 args5 (mkSearchFilter (args5.filter.getD emptyFilter)) =
        (full6.take 3).map (fun r => { r with collection_type := some "source" }) := by
      simp [routeResults, args5, performLexicalSearch, lexicalCombined, lexicalPart,
        env5, cSrc5, mkSearchFilter, emptyFilter, full6, rq]
    rw [hroute]
    norm_num [okScores, okOutput, applyPipeline, mkSearchFilter, emptyFilter, args5,
      get_nearest_until_next_dev_exceeds_std_dev, devLoop, scoreOf, truthyQ,
      formatResult, truthyS, full6, rq]

/-- C5, amended: the dispatcher's own limit slice always happens after
cutoff filtering (the pipeline returns the filtered list truncated to the
limit), and in Vector mode — whose backing lookup receives no limit — the
claim holds as stated; in Lexical and DirectVector modes the limit is
also forwarded to the backing call, so the backing collection may
truncate before the cutoff filter runs. -/
theorem limit_applied_after_cutoff_in_dispatcher
    (plugin : Plugin) (env : Env) (args : Args) (hs : List String) (sf : SearchFilter)
    (henv : plugin.env = some env)
    (hkw : args.keywords = none)
    (hdv : args.direct_vector = none)
    (hhyp : args.hypotheticals = some hs)
    (hne : hs ≠ [])
    (hsf : sf = mkSearchFilter (args.filter.getD emptyFilter)) :
    executeSearch plugin args = .ok (applyPipeline sf (performVectorSearch env hs sf)) ∧
    ∀ (sf2 : SearchFilter) (found : List RawResult),
      (applyPipeline sf2 found).results =
        ((if found.length > 0 then get_nearest_until_next_dev_exceeds_std_dev found
          else found).take sf2.limit).map formatResult := by
  subst hsf
  constructor
  · simp [executeSearch, henv, routeResults, hkw, hdv, hhyp, List.length_pos.mpr hne]
  · intro sf2 found
    rfl

/-- C5, witness for the amended statement at a concrete vector-mode
request. -/
theorem limit_applied_after_cutoff_in_dispatcher_witness :
    plugin1.env = some env1 ∧
    executeSearch plugin1 args1 =
      .ok (applyPipeline (mkSearchFilter (args1.filter.getD emptyFilter))
        (performVectorSearch env1 ["q"] (mkSearchFilter (args1.filter.getD emptyFilter)))) := by
  refine ⟨rfl, ?_⟩
  exact (limit_applied_after_cutoff_in_dispatcher plugin1 env1 args1 ["q"]
    (mkSearchFilter (args1.filter.getD emptyFilter)) rfl rfl rfl rfl (by decide) rfl).1

/-- C6: `executeSearch` fails exactly when the plugin environment is
absent (the host never finished loading), and a loaded environment with
no usable collections at all yields an empty, error-free result set — so
an empty-but-ready environment and a not-ready one are distinguishable,
and a not-ready one is never reported as an empty list. -/
theorem executeSearch_error_iff_env_missing :
    ∀ (plugin : Plugin) (args : Args),
      (okOutput (executeSearch plugin args)).isSome = plugin.env.isSome ∧
      executeSearch { env := some { smart_sources := none, smart_blocks := none } } args =
        .ok { results := [], count := 0, total_before_limit := 0 } := by
  intro plugin args
  constructor
  · cases hp : plugin.env with
    | none => simp [executeSearch, hp, okOutput]
    | some env => simp [executeSearch, hp, okOutput]
  · simp [executeSearch, routeResults_noCollections, applyPipeline]

/-- C7: whenever the combined lexical result across the queried
collections is empty — including when keyword search is unsupported or
the backing call throws, both of which contribute zero results — the
dispatcher retries the identical request as a vector search with the
keywords as hypotheticals, and a loaded environment never surfaces an
error to the caller. -/
theorem lexical_empty_retries_as_vector :
    ∀ (env : Env) (kws : List String) (sf : SearchFilter),
      lexicalCombined env kws sf = [] →
      performLexicalSearch env kws sf = performVectorSearch env kws sf ∧
      ∀ (plugin : Plugin) (args : Args), plugin.env = some env →
        (okOutput (executeSearch plugin args)).isSome = true := by
  intro env kws sf h
  constructor
  · simp [performLexicalSearch, h]
  · intro plugin args hp
    simp [executeSearch, hp, okOutput]

/-- C7, witness: a collection whose keyword search throws yields an empty
combined lexical result, and the lexical search then equals the vector
search over the keywords. -/
theorem lexical_empty_retries_as_vector_witness :
    lexicalCombined env7 ["k"] sfDefault = [] ∧
    performLexicalSearch env7 ["k"] sfDefault = performVectorSearch env7 ["k"] sfDefault := by
  refine ⟨by decide, ?_⟩
  exact (lexical_empty_retries_as_vector env7 ["k"] sfDefault (by decide)).1

/-- C8, counterexample: in an environment where every entity key resolves
(`get` succeeds) and an entity-vector-driven nearest search would return
the score-5 result, `executeSearch`'s direct-vector handler still returns
the plain Nearest result for the supplied vector — entity resolution is
never attempted, so the fallback is not conditional on resolution
failing. -/
theorem nearest_to_ignores_entity_resolution :
    (cNT.get "note.md").isSome = true ∧
    performDirectVectorSearch envNT [1] VectorOp.nearest_to sfNT =
      performDirectVectorSearch envNT [1] VectorOp.nearest sfNT ∧
    nearestToPerSpec cNT "note.md" [1] pNT = [rq 5] ∧
    performDirectVectorSearch envNT [1] VectorOp.nearest_to sfNT ≠
      (nearestToPerSpec cNT "note.md" [1] pNT).map
        (fun r => { r with collection_type := some "source" }) := by
  refine ⟨rfl, rfl, by decide, by decide⟩

/-- C8, amended: for DirectVector with `vector_operation = NearestTo` the
dispatcher performs no entity resolution at all — it always executes the
Nearest operation with the supplied vector (the code notes this as a
temporary fallback). -/
theorem nearest_to_is_always_nearest :
    ∀ (env : Env) (v : List ℚ) (sf : SearchFilter),
      performDirectVectorSearch env v VectorOp.nearest_to sf =
        performDirectVectorSearch env v VectorOp.nearest sf := by
  intro env v sf
  rfl

/-- C9, counterexample: a request whose filter carries `limit = 60`,
above the published schema maximum of 50, is not rejected: it is
dispatched to the collections and answered normally. -/
theorem overlarge_limit_not_rejected :
    (mkSearchFilter (args9.filter.getD emptyFilter)).limit = 60 ∧
    inputSchemaLimitMaximum = 50 ∧
    okScores (executeSearch plugin1 args9) = some [1, 2] := by
  exact ⟨rfl, rfl, by rfl⟩

/-- C9, amended: `execute` performs no limit validation — the maximum of
50 exists only in the published input schema, and a request whose
(defaulted) limit exceeds it still succeeds on any loaded environment. -/
theorem executeSearch_accepts_overlarge_limit :
    ∀ (plugin : Plugin) (env : Env) (args : Args),
      plugin.env = some env →
      inputSchemaLimitMaximum < (mkSearchFilter (args.filter.getD emptyFilter)).limit →
      (okOutput (executeSearch plugin args)).isSome = true := by
  intro plugin env args henv _
  simp [executeSearch, henv, okOutput]

/-- C9, witness for the amended statement at the concrete limit-60
request. -/
theorem executeSearch_accepts_overlarge_limit_witness :
    inputSchemaLimitMaximum < (mkSearchFilter (args9.filter.getD emptyFilter)).limit ∧
    (okOutput (executeSearch plugin1 args9)).isSome = true :=
  ⟨by decide, executeSearch_accepts_overlarge_limit plugin1 env1 args9 rfl (by decide)⟩

/-- C10: on every successful `executeSearch` call, `count` equals
`total_before_limit` — both are computed from the result array after the
limit slice — and `total_before_limit` is therefore bounded by the
(defaulted) limit rather than reporting the pre-limit total. -/
theorem count_eq_total_before_limit :
    ∀ (plugin : Plugin) (args : Args) (out : Output),
      executeSearch plugin args = .ok out →
      out.count = out.total_before_limit ∧
      out.total_before_limit ≤ (mkSearchFilter (args.filter.getD emptyFilter)).limit := by
  intro plugin args out h
  cases hp : plugin.env with
  | none => simp [executeSearch, hp] at h
  | some env =>
    simp only [executeSearch, hp] at h
    cases h
    exact applyPipeline_counts _ _

/-- C10, witness at a concrete two-result call. -/
theorem count_eq_total_before_limit_witness :
    out1.count = out1.total_before_limit ∧
    out1.total_before_limit ≤ (mkSearchFilter (args1.filter.getD emptyFilter)).limit :=
  count_eq_total_before_limit plugin1 args1 out1 rfl

end SmartConnections
